import Mathlib

/-!
Verification of the rule-based insights engine of the NL2SQL repository
(source file insights.py).

The engine consumes a question string, a SQL string and a tabular result
set, selects analysis blocks by keyword/column-marker matching, and merges
the blocks' metric tiles, narrative bullets and charts into one artifact.

Embedding conventions:
* Python floats are idealised as exact rationals, represented by the type
  Q below as an unreduced fraction (integer numerator, natural
  denominator), so that every arithmetic step is kernel-computable.
* A pandas DataFrame is a list of named, typed columns of equal length;
  a cell is either a number (ints and booleans included, booleans as 0/1)
  or a text value.  A column carries the pandas dtype of the source.
* Matplotlib figures are opaque render artifacts; a chart is modelled by
  its kind (bar or histogram with bin count), title and axis label, the
  only data about a figure the code under verification fixes.
* Fallible pandas calls are modelled in Except; the only fallible call in
  the modelled region is the groupby-mean over a non-numeric column in
  the delivery chart path.
-/

/-- Exact rational numbers as unreduced fractions.  The denominator is kept
positive by every constructor used in the development; no normalisation is
performed so that all operations reduce in the kernel. -/
structure Q where
  num : Int
  den : Nat
deriving DecidableEq

def qofInt (n : Int) : Q := ⟨n, 1⟩

def qadd (a b : Q) : Q := ⟨a.num * b.den + b.num * a.den, a.den * b.den⟩

def qsub (a b : Q) : Q := ⟨a.num * b.den - b.num * a.den, a.den * b.den⟩

def qmul (a b : Q) : Q := ⟨a.num * b.num, a.den * b.den⟩

def qinv (a : Q) : Q :=
  if a.num = 0 then ⟨0, 1⟩
  else if a.num < 0 then ⟨-(a.den : Int), a.num.natAbs⟩
  else ⟨(a.den : Int), a.num.natAbs⟩

def qdiv (a b : Q) : Q := qmul a (qinv b)

/-- Strict order on fractions by cross multiplication. -/
def qlt (a b : Q) : Bool := a.num * (b.den : Int) < b.num * (a.den : Int)

def qle (a b : Q) : Bool := a.num * (b.den : Int) ≤ b.num * (a.den : Int)

/-- Semantic equality of fractions (they need not be reduced). -/
def qeqv (a b : Q) : Bool := a.num * (b.den : Int) == b.num * (a.den : Int)

/-- Sum of a list of fractions, folded from the left starting at zero, as
the pandas sum over a column is. -/
def qsum (l : List Q) : Q := l.foldl qadd ⟨0, 1⟩

/-- Arithmetic mean: sum divided by length. -/
def qmean (l : List Q) : Q := qdiv (qsum l) (qofInt l.length)

/-- Floor of a fraction as an integer (flooring integer division). -/
def qfloor (a : Q) : Int := a.num.fdiv (a.den : Int)

/-- Truncation toward zero, as the Python int() conversion. -/
def qtrunc (a : Q) : Int :=
  if qlt a ⟨0, 1⟩ then -(qfloor ⟨-a.num, a.den⟩) else qfloor a

def insertSorted (x : Q) : List Q → List Q
  | [] => [x]
  | y :: ys => if qle x y then x :: y :: ys else y :: insertSorted x ys

def sortQ : List Q → List Q
  | [] => []
  | x :: xs => insertSorted x (sortQ xs)

/-- Median as pandas computes it: middle element of the sorted values for
odd length, mean of the two middle elements for even length. -/
def qmedian (l : List Q) : Q :=
  let s := sortQ l
  let n := s.length
  if n = 0 then ⟨0, 1⟩
  else if n % 2 = 1 then s.getD (n / 2) ⟨0, 1⟩
  else qdiv (qadd (s.getD (n / 2 - 1) ⟨0, 1⟩) (s.getD (n / 2) ⟨0, 1⟩)) (qofInt 2)

/-- Round to the nearest integer, ties to even, as Python float formatting
rounds. -/
def roundHalfEven (a : Q) : Int :=
  let fl := qfloor a
  let fr : Q := ⟨a.num - fl * a.den, a.den⟩
  if qlt fr ⟨1, 2⟩ then fl
  else if qlt ⟨1, 2⟩ fr then fl + 1
  else if fl % 2 = 0 then fl else fl + 1

/-- ASCII lowercasing of a character, as Python str.lower acts on the
ASCII inputs the engine receives. -/
def lowerChar (c : Char) : Char :=
  if c.isUpper then Char.ofNat (c.toNat + 32) else c

def lowerStr (s : String) : String := ⟨s.data.map lowerChar⟩

/-- Decides whether the list needle occurs contiguously at the head of
hay. -/
def startsWithL : List Char → List Char → Bool
  | _, [] => true
  | [], _ :: _ => false
  | a :: as, b :: bs => a == b && startsWithL as bs

/-- Decides whether the list needle occurs contiguously anywhere in hay,
the Python substring test. -/
def containsL : List Char → List Char → Bool
  | [], needle => needle.isEmpty
  | a :: t, needle => startsWithL (a :: t) needle || containsL t needle

/-- Python substring membership: needle in hay. -/
def containsStr (hay needle : String) : Bool := containsL hay.data needle.data

/-- Digit characters of a positive natural, most significant first; the
first argument is recursion fuel (the number itself suffices). -/
def natDigitsAux : Nat → Nat → List Char
  | 0, _ => []
  | _ + 1, 0 => []
  | fuel + 1, n + 1 =>
    natDigitsAux fuel ((n + 1) / 10) ++ [Nat.digitChar ((n + 1) % 10)]

def natToChars (n : Nat) : List Char :=
  if n = 0 then ['0'] else natDigitsAux n n

def natToString (n : Nat) : String := ⟨natToChars n⟩

/-- Inserts a comma after every run of three characters; the input and
output are in reverse (least significant digit first) order. -/
def group3 : Nat → List Char → List Char
  | _, [] => []
  | 0, d :: rest => ',' :: d :: group3 2 rest
  | k + 1, d :: rest => d :: group3 k rest

/-- Thousands grouping of a digit string, as the Python comma format
specifier. -/
def commaGroup (ds : List Char) : List Char := (group3 3 ds.reverse).reverse

def fmtCommaNat (n : Nat) : String := ⟨commaGroup (natToChars n)⟩

def fmtCommaInt (i : Int) : String :=
  ⟨(if i < 0 then ['-'] else []) ++ commaGroup (natToChars i.natAbs)⟩

def leftPad0 (k : Nat) (ds : List Char) : List Char :=
  List.replicate (k - ds.length) '0' ++ ds

/-- Fixed-point decimal rendering of a fraction with prec digits after the
point, rounding half to even, optionally with thousands grouping of the
integer part: the Python format specifiers .1f, .2f, ,.0f and ,.2f. -/
def fmtFixedL (comma : Bool) (prec : Nat) (q : Q) : List Char :=
  let r : Int := roundHalfEven ⟨q.num * (10 ^ prec : Nat), q.den⟩
  let m : Nat := r.natAbs
  let ip : Nat := m / 10 ^ prec
  let fp : Nat := m % 10 ^ prec
  let ipChars := if comma then commaGroup (natToChars ip) else natToChars ip
  let fpChars := if prec = 0 then [] else '.' :: leftPad0 prec (natToChars fp)
  (if r < 0 then ['-'] else []) ++ ipChars ++ fpChars

def fmtFixed (comma : Bool) (prec : Nat) (q : Q) : String :=
  ⟨fmtFixedL comma prec q⟩

/-- Pandas column dtypes distinguished by the engine: int64, float64, bool
and object (text). -/
inductive DType
  | int
  | float
  | bool
  | obj
deriving DecidableEq

/-- Membership of the dtype in the Python list int, float, bool. -/
def DType.isNumBool : DType → Bool
  | .int => true
  | .float => true
  | .bool => true
  | .obj => false

/-- Membership of the dtype in the Python list int, float; this is also
what numpy treats as a number (booleans excluded). -/
def DType.isNum : DType → Bool
  | .int => true
  | .float => true
  | _ => false

/-- One cell of a result set: a number (booleans as 0 or 1) or a text
value. -/
inductive CellVal
  | num (q : Q)
  | str (s : String)
deriving DecidableEq

def CellVal.toQ : CellVal → Q
  | .num q => q
  | .str _ => ⟨0, 1⟩

/-- Renders a cell the way a Python f-string renders a group key. -/
def CellVal.show : CellVal → String
  | .num q => if q.den = 1 then fmtCommaInt q.num else fmtFixed false 1 q
  | .str s => s

/-- A named, typed column of a result set. -/
structure Column where
  name : String
  dtype : DType
  cells : List CellVal
deriving DecidableEq

/-- Numeric view of a column, used by mean, sum and comparisons. -/
def Column.numVals (c : Column) : List Q := c.cells.map CellVal.toQ

/-- A tabular result set: the ordered columns of a pandas DataFrame. -/
structure DataFrame where
  cols : List Column
deriving DecidableEq

/-- Number of rows, the Python len of the frame. -/
def DataFrame.nrows (df : DataFrame) : Nat :=
  match df.cols with
  | [] => 0
  | c :: _ => c.cells.length

def DataFrame.ncols (df : DataFrame) : Nat := df.cols.length

/-- The pandas empty test: some axis has length zero. -/
def DataFrame.isEmptyDf (df : DataFrame) : Bool :=
  df.cols.isEmpty || df.nrows == 0

/-- Well-formedness of a result set: uniform record shape (all columns of
equal length) and cells consistent with the declared column dtype. -/
def DataFrame.wf (df : DataFrame) : Bool :=
  df.cols.all (fun c =>
    c.cells.length == df.nrows &&
    (c.dtype == DType.obj ||
      c.cells.all (fun v => match v with | .num _ => true | .str _ => false)))

example : containsStr "what is the delivery delay rate?" "delivery" = true := by decide
example : containsStr "hello" "late" = false := by decide
example : lowerStr "What IS" = "what is" := by decide
example : fmtFixed false 1 ⟨1, 10⟩ = "0.1" := by decide
example : fmtFixed false 1 (qmul (qmean [⟨1,1⟩, ⟨0,1⟩, ⟨0,1⟩, ⟨0,1⟩, ⟨0,1⟩, ⟨0,1⟩, ⟨0,1⟩, ⟨0,1⟩, ⟨0,1⟩, ⟨0,1⟩]) ⟨100,1⟩) = "10.0" := by decide
example : fmtFixed true 0 ⟨900, 1⟩ = "900" := by decide
example : fmtFixed true 2 (qmean [⟨100,1⟩, ⟨100,1⟩, ⟨100,1⟩, ⟨100,1⟩, ⟨500,1⟩]) = "180.00" := by decide
example : qeqv (qmedian [⟨100,1⟩, ⟨100,1⟩, ⟨100,1⟩, ⟨100,1⟩, ⟨500,1⟩]) ⟨100,1⟩ = true := by decide
example : fmtCommaNat 1234567 = "1,234,567" := by decide
example : fmtFixed true 0 ⟨12345, 1⟩ = "12,345" := by decide
example : fmtFixed false 1 ⟨25, 1000⟩ = "0.0" := by decide
example : fmtFixed false 1 ⟨75, 1000⟩ = "0.1" := by decide
example : fmtCommaInt (qtrunc ⟨-7, 2⟩) = "-3" := by decide

/-- One metric tile: the dict with keys metric, value, change, icon that a
block appends to its kpis list. -/
structure MetricTile where
  metric : String
  value : String
  change : String
  icon : String
deriving DecidableEq

inductive ChartKind
  | bar
  | hist (bins : Nat)
deriving DecidableEq

/-- A chart as an opaque render artifact: its kind, title and axis label,
the attributes fixed by the chart constructors in the source. -/
structure Chart where
  kind : ChartKind
  title : String
  label : String
deriving DecidableEq

def mkBarChart (title ylabel : String) : Chart := ⟨ChartKind.bar, title, ylabel⟩

def mkHistogram (title xlabel : String) : Chart := ⟨ChartKind.hist 20, title, xlabel⟩

/-- The dict returned by a successful analysis block. -/
structure BlockResult where
  kpis : List MetricTile
  narrative : String
  chart : Option Chart
  derivation : String
deriving DecidableEq

/-- The dict returned by the generic statistics fallback. -/
structure GenericResult where
  kpis : List MetricTile
  narrative : String
deriving DecidableEq

/-- The final artifact bundle returned by the engine run. -/
structure InsightArtifacts where
  kpis : List MetricTile
  narrative : String
  charts : List Chart
  derivation : String
deriving DecidableEq

/-- The rule-based insights engine: it stores only the (unused) schema
collaborator handed to the constructor. -/
structure InsightsEngine (S : Type) where
  schema : S

/-- The Python str.join: separator between consecutive elements. -/
def strJoin (sep : String) : List String → String
  | [] => ""
  | [x] => x
  | x :: y :: xs => x ++ sep ++ strJoin sep (y :: xs)

/-- Narrative join: each point becomes a markdown bullet line. -/
def joinPoints (points : List String) : String :=
  strJoin "\n" (points.map (fun p => "- " ++ p))

def highPointStr (rate : Q) : String :=
  "**High late delivery rate** at " ++ fmtFixed false 1 rate ++ "% - consider logistics optimization"

def goodPointStr (rate : Q) : String :=
  "Delivery performance is **good** with " ++ fmtFixed false 1 rate ++ "% late rate"

def skewPointStr : String :=
  "**Right-skewed distribution** - few high-value transactions pull up the average"

def topPointStr (name : String) (val pct : Q) : String :=
  "**Top performer:** " ++ name ++ " contributes $" ++ fmtFixed true 0 val ++
    " (" ++ fmtFixed false 1 pct ++ "%)"

def excellentPointStr : String :=
  "**Excellent** customer satisfaction with high average rating"

def concerningPointStr : String :=
  "**Concerning** low average rating - investigate quality issues"

def attentionPointStr (low : Nat) : String :=
  fmtCommaNat low ++ " low ratings (≤2) require attention"

/-- First column whose lower-cased name contains the given marker. -/
def findColBy (df : DataFrame) (p : Column → Bool) : Option Column :=
  df.cols.find? p

def lateColumn (df : DataFrame) : Option Column :=
  findColBy df (fun c => containsStr (lowerStr c.name) "late")

def deliveryColumn (df : DataFrame) : Option Column :=
  findColBy df (fun c =>
    containsStr (lowerStr c.name) "delivery" && ! containsStr (lowerStr c.name) "date")

def stateColumn (df : DataFrame) : Option Column :=
  findColBy df (fun c => containsStr (lowerStr c.name) "state")

/-- Late delivery rate: mean of the late-indicator column times 100. -/
def lateRate (c : Column) : Q := qmul (qmean c.numVals) ⟨100, 1⟩

def lateCount (c : Column) : Q := qsum c.numVals

/-- Metric tiles of the delivery block: present exactly when a
late-indicator column of int, float or bool dtype exists. -/
def deliveryKpis (lc : Option Column) : List MetricTile :=
  match lc with
  | some c =>
    if c.dtype.isNumBool then
      [⟨"Late Delivery Rate", fmtFixed false 1 (lateRate c) ++ "%", "", "🚚"⟩,
       ⟨"Late Deliveries", fmtCommaInt (qtrunc (lateCount c)), "", "⚠️"⟩]
    else []
  | none => []

def deliveryPoints (lc : Option Column) : List String :=
  match lc with
  | some c =>
    if c.dtype.isNumBool then
      [if qlt ⟨10, 1⟩ (lateRate c) then highPointStr (lateRate c)
       else goodPointStr (lateRate c)]
    else []
  | none => []

/-- Chart path of the delivery block.  The source groups the
late-indicator column by the state column and takes the mean with no
dtype guard; on an object-typed late column pandas raises there, which is
the single error case of the modelled region. -/
def deliveryChart (df : DataFrame) : Except String (Option Chart) :=
  match stateColumn df, lateColumn df with
  | some _, some lc =>
    if df.nrows > 1 then
      if lc.dtype.isNumBool then
        Except.ok (some (mkBarChart "Late Delivery Rate by State" "Late Rate"))
      else Except.error "TypeError: agg function failed on object dtype"
    else Except.ok none
  | _, _ => Except.ok none

def deliveryBlock (df : DataFrame) (_question _sql : String) :
    Except String (Option BlockResult) :=
  if (lateColumn df).isNone && (deliveryColumn df).isNone then Except.ok none
  else
    match deliveryChart df with
    | Except.error e => Except.error e
    | Except.ok ch =>
      Except.ok (some
        ⟨deliveryKpis (lateColumn df),
         joinPoints (deliveryPoints (lateColumn df)),
         ch,
         "Delivery analysis"⟩)

/-- Columns whose lower-cased name contains a payment value marker, in
column order. -/
def valueColumns (df : DataFrame) : List Column :=
  df.cols.filter (fun c =>
    ["value", "price", "revenue", "payment"].any
      (fun kw => containsStr (lowerStr c.name) kw))

/-- Column whose lower-cased name is exactly one of the grouping names. -/
def groupbyColumn (df : DataFrame) : Option Column :=
  findColBy df (fun c =>
    ["category", "state", "type", "product_category_name", "payment_type"].contains
      (lowerStr c.name))

/-- Distinct cell values in order of first appearance, the pandas unique. -/
def uniqueCells (l : List CellVal) : List CellVal :=
  l.foldl (fun acc v => if acc.contains v then acc else acc ++ [v]) []

/-- Sum of the value column over the rows whose group cell equals key. -/
def groupSum (g v : Column) (key : CellVal) : Q :=
  qsum (((g.cells.zip v.numVals).filter (fun p => p.1 == key)).map (fun p => p.2))

/-- The group with the largest value sum, the head of the sorted top-10. -/
def topGroup (g v : Column) : Option (CellVal × Q) :=
  (uniqueCells g.cells).foldl
    (fun best k =>
      match best with
      | none => some (k, groupSum g v k)
      | some (bk, bs) =>
        if qlt bs (groupSum g v k) then some (k, groupSum g v k) else some (bk, bs))
    none

def paymentTopPoint (df : DataFrame) (vc : Column) : List String :=
  match groupbyColumn df with
  | some g =>
    if (uniqueCells g.cells).length > 1 then
      match topGroup g vc with
      | some (k, s) =>
        [topPointStr (CellVal.show k) s (qmul (qdiv s (qsum vc.numVals)) ⟨100, 1⟩)]
      | none => []
    else []
  | none => []

def paymentPoints (df : DataFrame) (vc : Column) : List String :=
  (if qlt (qmul (qmedian vc.numVals) ⟨3, 2⟩) (qmean vc.numVals) then [skewPointStr] else [])
    ++ paymentTopPoint df vc

def paymentChart (df : DataFrame) (vc : Column) : Option Chart :=
  match groupbyColumn df with
  | some g =>
    if (uniqueCells g.cells).length > 1 then
      some (mkBarChart ("Top 10 by " ++ g.name) vc.name)
    else none
  | none => none

def paymentKpis (vc : Column) : List MetricTile :=
  [⟨"Total Value", "$" ++ fmtFixed true 0 (qsum vc.numVals), "", "💰"⟩,
   ⟨"Average", "$" ++ fmtFixed true 2 (qmean vc.numVals), "", "📊"⟩]

def paymentBlock (df : DataFrame) (_question _sql : String) :
    Except String (Option BlockResult) :=
  match valueColumns df with
  | [] => Except.ok none
  | vc :: _ =>
    if vc.dtype.isNum then
      Except.ok (some
        ⟨paymentKpis vc,
         joinPoints (paymentPoints df vc),
         paymentChart df vc,
         "Payment analysis"⟩)
    else Except.ok none

def scoreColumn (df : DataFrame) : Option Column :=
  findColBy df (fun c =>
    containsStr (lowerStr c.name) "score" || containsStr (lowerStr c.name) "rating")

def highScores (c : Column) : Nat :=
  (c.numVals.filter (fun q => qle ⟨4, 1⟩ q)).length

def lowScores (c : Column) : Nat :=
  (c.numVals.filter (fun q => qle q ⟨2, 1⟩)).length

def reviewPoints (c : Column) : List String :=
  (if qle ⟨4, 1⟩ (qmean c.numVals) then [excellentPointStr]
   else if qlt (qmean c.numVals) ⟨3, 1⟩ then [concerningPointStr]
   else [])
    ++ (if lowScores c > 0 then [attentionPointStr (lowScores c)] else [])

def reviewKpis (c : Column) : List MetricTile :=
  [⟨"Avg Review Score", fmtFixed false 2 (qmean c.numVals) ++ "/5", "", "⭐"⟩,
   ⟨"High Ratings (4-5)", fmtCommaNat (highScores c), "", "👍"⟩]

def reviewBlock (df : DataFrame) (_question _sql : String) :
    Except String (Option BlockResult) :=
  match scoreColumn df with
  | none => Except.ok none
  | some c =>
    if c.dtype.isNum then
      Except.ok (some
        ⟨reviewKpis c,
         joinPoints (reviewPoints c),
         (if df.nrows > 10 then
            some (mkHistogram "Review Score Distribution" c.name)
          else none),
         "Review analysis"⟩)
    else Except.ok none

/-- Generic statistics fallback: row count, column count and, when any
numeric (int or float) column exists, the numeric field count. -/
def genericStats (df : DataFrame) : GenericResult :=
  let numericCols := df.cols.filter (fun c => c.dtype.isNum)
  ⟨[⟨"Rows Returned", fmtCommaNat df.nrows, "", "📋"⟩,
    ⟨"Columns", natToString df.ncols, "", "📊"⟩]
     ++ (if numericCols.length > 0 then
           [⟨"Numeric Fields", natToString numericCols.length, "", "🔢"⟩]
         else []),
   "- Result contains **" ++ fmtCommaNat df.nrows ++ " rows** across **" ++
     natToString df.ncols ++ " columns**" ++
     (if numericCols.length > 0 then
        "\n- " ++ natToString numericCols.length ++
          " numeric field(s) available for aggregation"
      else "")⟩

/-- The three analysis block kinds in the fixed source order. -/
inductive BlockKind
  | delivery
  | payment
  | review
deriving DecidableEq

def applyBlock : BlockKind → DataFrame → String → String → Except String (Option BlockResult)
  | .delivery, df, q, sql => deliveryBlock df q sql
  | .payment, df, q, sql => paymentBlock df q sql
  | .review, df, q, sql => reviewBlock df q sql

/-- Condition appending the delivery block: a delivery keyword in the
lower-cased question or SQL, and a column whose lower-cased name contains
a delivery marker. -/
def deliveryCond (question sql : String) (df : DataFrame) : Bool :=
  (["delivery", "late", "delay", "shipped"].any
    (fun kw => containsStr (lowerStr question) kw || containsStr (lowerStr sql) kw)) &&
  ((df.cols.map (fun c => lowerStr c.name)).any
    (fun c => containsStr c "delivery" || containsStr c "late"))

def paymentCond (question sql : String) (df : DataFrame) : Bool :=
  (["payment", "revenue", "price", "value"].any
    (fun kw => containsStr (lowerStr question) kw || containsStr (lowerStr sql) kw)) &&
  ((df.cols.map (fun c => lowerStr c.name)).any
    (fun c => containsStr c "payment" || containsStr c "price" ||
      containsStr c "value" || containsStr c "revenue"))

def reviewCond (question sql : String) (df : DataFrame) : Bool :=
  (["review", "rating", "score", "feedback"].any
    (fun kw => containsStr (lowerStr question) kw || containsStr (lowerStr sql) kw)) &&
  ((df.cols.map (fun c => lowerStr c.name)).any
    (fun c => containsStr c "review" || containsStr c "score" ||
      containsStr c "rating"))

/-- Block selection: a block is appended when one of its keywords occurs
in the lower-cased question or SQL and one of its column markers occurs
in a lower-cased column name; the appends keep the fixed source order. -/
def inferBlocks (question sql : String) (df : DataFrame) : List BlockKind :=
  (if deliveryCond question sql df then [BlockKind.delivery] else [])
    ++ (if paymentCond question sql df then [BlockKind.payment] else [])
    ++ (if reviewCond question sql df then [BlockKind.review] else [])

/-- The accumulation loop of run: invoke each block in order and extend
the kpi, narrative, chart and derivation accumulators with the truthy
parts of each result. -/
def processBlocks (ks : List BlockKind) (df : DataFrame) (q sql : String) :
    Except String (List MetricTile × List String × List Chart × List String) :=
  match ks with
  | [] => Except.ok ([], [], [], [])
  | k :: rest =>
    match applyBlock k df q sql with
    | Except.error e => Except.error e
    | Except.ok none => processBlocks rest df q sql
    | Except.ok (some r) =>
      match processBlocks rest df q sql with
      | Except.error e => Except.error e
      | Except.ok (ts, ns, cs, ds) =>
        Except.ok
          (r.kpis ++ ts,
           (if r.narrative != "" then [r.narrative] else []) ++ ns,
           (match r.chart with | some c => [c] | none => []) ++ cs,
           (if r.derivation != "" then [r.derivation] else []) ++ ds)

/-- The engine entry point, translated from InsightsEngine.run: empty
result sets short-circuit; otherwise the selected blocks are invoked and
merged, with the generic fallback substituted when no metrics
accumulated, at most two charts kept, and the derivation labels joined. -/
def InsightsEngine.run {S : Type} (_eng : InsightsEngine S)
    (question sql : String) (df : DataFrame) : Except String InsightArtifacts :=
  if df.isEmptyDf then
    Except.ok ⟨[], "*No data returned to analyze.*", [], "Empty result set"⟩
  else
    match processBlocks (inferBlocks question sql df) df question sql with
    | Except.error e => Except.error e
    | Except.ok (ts, ns, cs, ds) =>
      let g := genericStats df
      let kn : List MetricTile × List String :=
        if ts.isEmpty then (g.kpis, ns ++ [g.narrative]) else (ts, ns)
      Except.ok
        ⟨kn.1,
         strJoin "\n\n" kn.2,
         cs.take 2,
         if ds.isEmpty then "Generic analysis" else strJoin " → " ds⟩

def eng0 : InsightsEngine Unit := ⟨()⟩

def dfEmpty0 : DataFrame := ⟨[⟨"order_id", DType.int, []⟩]⟩

def dfBad : DataFrame :=
  ⟨[⟨"late", DType.obj, [CellVal.str "yes", CellVal.str "no"]⟩,
    ⟨"customer_state", DType.obj, [CellVal.str "SP", CellVal.str "RJ"]⟩]⟩

def dfLateOnly : DataFrame :=
  ⟨[⟨"late", DType.obj, [CellVal.str "a", CellVal.str "b"]⟩]⟩

def isLateCol1 : Column :=
  ⟨"is_late", DType.bool,
   [CellVal.num ⟨1, 1⟩, CellVal.num ⟨0, 1⟩, CellVal.num ⟨0, 1⟩,
    CellVal.num ⟨0, 1⟩, CellVal.num ⟨0, 1⟩, CellVal.num ⟨0, 1⟩,
    CellVal.num ⟨0, 1⟩, CellVal.num ⟨0, 1⟩, CellVal.num ⟨0, 1⟩,
    CellVal.num ⟨0, 1⟩]⟩

def dfIsLate1 : DataFrame := ⟨[isLateCol1]⟩

def dfIsLate2 : DataFrame :=
  ⟨[⟨"is_late", DType.bool,
     [CellVal.num ⟨1, 1⟩, CellVal.num ⟨1, 1⟩, CellVal.num ⟨0, 1⟩,
      CellVal.num ⟨0, 1⟩, CellVal.num ⟨0, 1⟩, CellVal.num ⟨0, 1⟩,
      CellVal.num ⟨0, 1⟩, CellVal.num ⟨0, 1⟩, CellVal.num ⟨0, 1⟩,
      CellVal.num ⟨0, 1⟩]⟩]⟩

def payCol1 : Column :=
  ⟨"order_value", DType.int,
   [CellVal.num ⟨100, 1⟩, CellVal.num ⟨100, 1⟩, CellVal.num ⟨100, 1⟩,
    CellVal.num ⟨100, 1⟩, CellVal.num ⟨500, 1⟩]⟩

def dfPay : DataFrame := ⟨[payCol1]⟩

def dfFoo : DataFrame :=
  ⟨[⟨"foo", DType.int, [CellVal.num ⟨1, 1⟩, CellVal.num ⟨2, 1⟩]⟩]⟩

def reviewCol1 : Column :=
  ⟨"review_score", DType.int,
   [CellVal.num ⟨5, 1⟩, CellVal.num ⟨5, 1⟩, CellVal.num ⟨4, 1⟩,
    CellVal.num ⟨1, 1⟩]⟩

def dfReview : DataFrame := ⟨[reviewCol1]⟩

example : eng0.run "q" "s" dfEmpty0 =
    Except.ok ⟨[], "*No data returned to analyze.*", [], "Empty result set"⟩ := by rfl

example : eng0.run "late deliveries" "" dfBad =
    Except.error "TypeError: agg function failed on object dtype" := by rfl

example : (match eng0.run "late" "" dfLateOnly with
    | Except.ok a => a.derivation
    | Except.error _ => "") = "Delivery analysis" := by decide

example : (match eng0.run "late" "" dfLateOnly with
    | Except.ok a => a.kpis
    | Except.error _ => []) = (genericStats dfLateOnly).kpis := by decide

example : (match eng0.run "What is the delivery delay rate?" "" dfIsLate1 with
    | Except.ok a => a.kpis
    | Except.error _ => []) =
    [⟨"Late Delivery Rate", "10.0%", "", "🚚"⟩,
     ⟨"Late Deliveries", "1", "", "⚠️"⟩] := by decide

example : (match eng0.run "What is the delivery delay rate?" "" dfIsLate1 with
    | Except.ok a => containsStr a.narrative "good"
    | Except.error _ => false) = true := by decide

example : (match eng0.run "What is the delivery delay rate?" "" dfIsLate2 with
    | Except.ok a => containsStr a.narrative "High late delivery rate"
    | Except.error _ => false) = true := by decide

example : (match eng0.run "total revenue" "" dfPay with
    | Except.ok a => a.kpis
    | Except.error _ => []) =
    [⟨"Total Value", "$900", "", "💰"⟩,
     ⟨"Average", "$180.00", "", "📊"⟩] := by decide

example : (match eng0.run "total revenue" "" dfPay with
    | Except.ok a => containsStr a.narrative "Right-skewed distribution"
    | Except.error _ => false) = true := by decide

example : eng0.run "hello" "select 1" dfFoo =
    Except.ok ⟨(genericStats dfFoo).kpis, (genericStats dfFoo).narrative, [],
      "Generic analysis"⟩ := by rfl

example : inferBlocks "hello" "select 1" dfFoo = [] := by decide

example : (match reviewBlock dfReview "x" "y" with
    | Except.ok (some r) => r.kpis
    | _ => []) =
    [⟨"Avg Review Score", "3.75/5", "", "⭐"⟩,
     ⟨"High Ratings (4-5)", "3", "", "👍"⟩] := by decide

theorem strData_append (s t : String) : (s ++ t).data = s.data ++ t.data := by
  cases s
  cases t
  rfl

theorem strJoin_single (sep x : String) : strJoin sep [x] = x := rfl

theorem joinPoints_single (p : String) : joinPoints [p] = "- " ++ p := rfl

theorem startsWithL_append (h n ext : List Char) (hs : startsWithL h n = true) :
    startsWithL (h ++ ext) n = true := by
  induction n generalizing h with
  | nil => simp [startsWithL]
  | cons b bs ih =>
    cases h with
    | nil => simp [startsWithL] at hs
    | cons a as =>
      simp only [startsWithL, Bool.and_eq_true] at hs
      simp only [List.cons_append, startsWithL, Bool.and_eq_true]
      exact ⟨hs.1, ih as hs.2⟩

theorem containsL_append_left (h ext n : List Char) (hc : containsL h n = true) :
    containsL (h ++ ext) n = true := by
  induction h with
  | nil =>
    simp only [containsL, List.isEmpty_eq_true] at hc
    subst hc
    cases ext <;> simp [containsL, startsWithL]
  | cons a t ih =>
    simp only [containsL, Bool.or_eq_true] at hc
    simp only [List.cons_append, containsL, Bool.or_eq_true]
    rcases hc with hs | hrest
    · exact Or.inl (startsWithL_append (a :: t) n ext hs)
    · exact Or.inr (ih hrest)

theorem startsWithL_subset (h n : List Char) (hs : startsWithL h n = true) :
    ∀ c ∈ n, c ∈ h := by
  induction n generalizing h with
  | nil => intro c hc; simp at hc
  | cons b bs ih =>
    cases h with
    | nil => simp [startsWithL] at hs
    | cons a as =>
      simp only [startsWithL, Bool.and_eq_true, beq_iff_eq] at hs
      intro c hc
      rcases List.mem_cons.mp hc with rfl | hmem
      · simp [hs.1]
      · exact List.mem_cons_of_mem a (ih as hs.2 c hmem)

theorem containsL_subset (h n : List Char) (hc : containsL h n = true) :
    ∀ c ∈ n, c ∈ h := by
  induction h with
  | nil =>
    simp only [containsL, List.isEmpty_eq_true] at hc
    subst hc
    intro c hc
    simp at hc
  | cons a t ih =>
    simp only [containsL, Bool.or_eq_true] at hc
    rcases hc with hs | hrest
    · exact startsWithL_subset (a :: t) n hs
    · intro c hmem
      exact List.mem_cons_of_mem a (ih hrest c hmem)

/-- The characters a numeric format can emit. -/
def isNumChar (c : Char) : Bool :=
  c.isDigit || c == '-' || c == '.' || c == ','

theorem digitChar_isNumChar (d : Nat) (hd : d < 10) :
    isNumChar (Nat.digitChar d) = true := by
  interval_cases d <;> decide

theorem mem_natDigitsAux (fuel n : Nat) (c : Char)
    (hc : c ∈ natDigitsAux fuel n) : isNumChar c = true := by
  induction fuel generalizing n with
  | zero => simp [natDigitsAux] at hc
  | succ fuel ih =>
    cases n with
    | zero => simp [natDigitsAux] at hc
    | succ m =>
      simp only [natDigitsAux, List.mem_append, List.mem_singleton] at hc
      rcases hc with hrec | rfl
      · exact ih _ hrec
      · exact digitChar_isNumChar _ (Nat.mod_lt _ (by omega))

theorem mem_natToChars (n : Nat) (c : Char) (hc : c ∈ natToChars n) :
    isNumChar c = true := by
  unfold natToChars at hc
  split at hc
  · simp at hc
    subst hc
    decide
  · exact mem_natDigitsAux n n c hc

theorem mem_group3 (k : Nat) (l : List Char) (c : Char) (hc : c ∈ group3 k l) :
    c = ',' ∨ c ∈ l := by
  induction l generalizing k with
  | nil => simp [group3] at hc
  | cons d rest ih =>
    cases k with
    | zero =>
      simp only [group3, List.mem_cons] at hc
      rcases hc with rfl | rfl | hmem
      · exact Or.inl rfl
      · exact Or.inr (List.mem_cons_self _ _)
      · rcases ih 2 hmem with h | h
        · exact Or.inl h
        · exact Or.inr (List.mem_cons_of_mem _ h)
    | succ k =>
      simp only [group3, List.mem_cons] at hc
      rcases hc with rfl | hmem
      · exact Or.inr (List.mem_cons_self _ _)
      · rcases ih k hmem with h | h
        · exact Or.inl h
        · exact Or.inr (List.mem_cons_of_mem _ h)

theorem mem_commaGroup (l : List Char) (c : Char) (hc : c ∈ commaGroup l) :
    c = ',' ∨ c ∈ l := by
  unfold commaGroup at hc
  rw [List.mem_reverse] at hc
  rcases mem_group3 3 l.reverse c hc with h | h
  · exact Or.inl h
  · exact Or.inr (List.mem_reverse.mp h)

theorem mem_leftPad0 (k : Nat) (l : List Char) (c : Char) (hc : c ∈ leftPad0 k l) :
    c = '0' ∨ c ∈ l := by
  unfold leftPad0 at hc
  rcases List.mem_append.mp hc with h | h
  · exact Or.inl (List.eq_of_mem_replicate h)
  · exact Or.inr h

theorem mem_fmtFixedL (comma : Bool) (prec : Nat) (q : Q) (c : Char)
    (hc : c ∈ fmtFixedL comma prec q) : isNumChar c = true := by
  unfold fmtFixedL at hc
  simp only [List.mem_append] at hc
  rcases hc with (hsign | hip) | hfp
  · split at hsign
    · simp at hsign
      subst hsign
      decide
    · simp at hsign
  · split at hip
    · rcases mem_commaGroup _ c hip with rfl | h
      · decide
      · exact mem_natToChars _ c h
    · exact mem_natToChars _ c hip
  · split at hfp
    · simp at hfp
    · simp only [List.mem_cons] at hfp
      rcases hfp with rfl | h
      · decide
      · rcases mem_leftPad0 _ _ c h with rfl | h2
        · decide
        · exact mem_natToChars _ c h2

theorem mem_fmtFixed_data (comma : Bool) (prec : Nat) (q : Q) (c : Char)
    (hc : c ∈ (fmtFixed comma prec q).data) : isNumChar c = true :=
  mem_fmtFixedL comma prec q c hc

theorem mem_fmtCommaNat_data (n : Nat) (c : Char)
    (hc : c ∈ (fmtCommaNat n).data) : isNumChar c = true := by
  rcases mem_commaGroup _ c hc with rfl | h
  · decide
  · exact mem_natToChars _ c h

theorem qle_true_of_qlt_false (a b : Q) (h : qlt a b = false) : qle b a = true := by
  simp only [qlt, decide_eq_false_iff_not, Int.not_lt] at h
  simpa [qle] using h

theorem qlt_false_of_qle_true (a b : Q) (h : qle a b = true) : qlt b a = false := by
  simp only [qle, decide_eq_true_eq] at h
  simp only [qlt, decide_eq_false_iff_not, Int.not_lt]
  exact h

/-- Keyword table of the block selector, one row per block kind. -/
def blockKeywords : BlockKind → List String
  | .delivery => ["delivery", "late", "delay", "shipped"]
  | .payment => ["payment", "revenue", "price", "value"]
  | .review => ["review", "rating", "score", "feedback"]

/-- Column-marker table of the block selector. -/
def blockMarkers : BlockKind → List String
  | .delivery => ["delivery", "late"]
  | .payment => ["payment", "price", "value", "revenue"]
  | .review => ["review", "score", "rating"]

/-- The selection predicate of the specification: a block kind is selected
when some keyword occurs in the lower-cased question or SQL and some
lower-cased column name contains one of its markers; each kind is decided
independently. -/
def selectsBlock (k : BlockKind) (question sql : String) (df : DataFrame) : Bool :=
  ((blockKeywords k).any fun kw =>
    containsStr (lowerStr question) kw || containsStr (lowerStr sql) kw) &&
  ((blockMarkers k).any fun m =>
    df.cols.any fun c => containsStr (lowerStr c.name) m)

theorem any_bor {α : Type} (l : List α) (p q : α → Bool) :
    (l.any fun x => p x || q x) = (l.any p || l.any q) := by
  apply Bool.eq_iff_iff.mpr
  simp only [List.any_eq_true, Bool.or_eq_true]
  constructor
  · rintro ⟨x, hx, h | h⟩
    exacts [Or.inl ⟨x, hx, h⟩, Or.inr ⟨x, hx, h⟩]
  · rintro (⟨x, hx, h⟩ | ⟨x, hx, h⟩)
    exacts [⟨x, hx, Or.inl h⟩, ⟨x, hx, Or.inr h⟩]

/-- Exchanging the two quantifiers of the marker test: some lower-cased
column name matching some marker equals some marker matching some column. -/
theorem markerAny (df : DataFrame) (ms : List String) :
    ((df.cols.map fun c => lowerStr c.name).any fun s => ms.any fun m => containsStr s m) =
    (ms.any fun m => df.cols.any fun c => containsStr (lowerStr c.name) m) := by
  apply Bool.eq_iff_iff.mpr
  simp only [List.any_eq_true, List.mem_map]
  constructor
  · rintro ⟨s, ⟨c, hc, rfl⟩, m, hm, h⟩
    exact ⟨m, hm, c, hc, h⟩
  · rintro ⟨m, hm, c, hc, h⟩
    exact ⟨lowerStr c.name, ⟨c, hc, rfl⟩, m, hm, h⟩

/-- Each source selection condition agrees with the table-driven
specification predicate. -/
theorem cond_eq_selects (q sql : String) (df : DataFrame) :
    deliveryCond q sql df = selectsBlock BlockKind.delivery q sql df ∧
    paymentCond q sql df = selectsBlock BlockKind.payment q sql df ∧
    reviewCond q sql df = selectsBlock BlockKind.review q sql df := by
  refine ⟨?_, ?_, ?_⟩
  · have hpt : (fun s => containsStr s "delivery" || containsStr s "late") =
        (fun s => ["delivery", "late"].any fun m => containsStr s m) := by
      funext s
      simp [List.any_cons, List.any_nil, Bool.or_assoc]
    simp only [deliveryCond, selectsBlock, blockKeywords, blockMarkers, hpt,
      markerAny df ["delivery", "late"]]
  · have hpt : (fun s => containsStr s "payment" || containsStr s "price" ||
        containsStr s "value" || containsStr s "revenue") =
        (fun s => ["payment", "price", "value", "revenue"].any fun m => containsStr s m) := by
      funext s
      simp [List.any_cons, List.any_nil, Bool.or_assoc]
    simp only [paymentCond, selectsBlock, blockKeywords, blockMarkers, hpt,
      markerAny df ["payment", "price", "value", "revenue"]]
  · have hpt : (fun s => containsStr s "review" || containsStr s "score" ||
        containsStr s "rating") =
        (fun s => ["review", "score", "rating"].any fun m => containsStr s m) := by
      funext s
      simp [List.any_cons, List.any_nil, Bool.or_assoc]
    simp only [reviewCond, selectsBlock, blockKeywords, blockMarkers, hpt,
      markerAny df ["review", "score", "rating"]]

/-- Claim C3: for every question, SQL text, and result set, the block
selector returns precisely those block kinds whose keyword set hits the
lower-cased question or SQL and whose marker set hits a lower-cased column
name, decided independently per kind, always in the fixed order delivery,
payment, review. -/
theorem c3_infer_blocks_filter (q sql : String) (df : DataFrame) :
    inferBlocks q sql df =
    [BlockKind.delivery, BlockKind.payment, BlockKind.review].filter
      (fun k => selectsBlock k q sql df) := by
  obtain ⟨hd, hp, hr⟩ := cond_eq_selects q sql df
  simp only [inferBlocks, hd, hp, hr, List.filter_cons, List.filter_nil]
  rcases Bool.dichotomy (selectsBlock BlockKind.delivery q sql df) with h1 | h1 <;>
    rcases Bool.dichotomy (selectsBlock BlockKind.payment q sql df) with h2 | h2 <;>
      rcases Bool.dichotomy (selectsBlock BlockKind.review q sql df) with h3 | h3 <;>
        simp [h1, h2, h3]

theorem applyBlock_qsql_irrel (k : BlockKind) (df : DataFrame) (q1 s1 q2 s2 : String) :
    applyBlock k df q1 s1 = applyBlock k df q2 s2 := by
  cases k <;> rfl

theorem processBlocks_qsql_irrel (ks : List BlockKind) (df : DataFrame)
    (q1 s1 q2 s2 : String) :
    processBlocks ks df q1 s1 = processBlocks ks df q2 s2 := by
  induction ks with
  | nil => rfl
  | cons k rest ih =>
    simp only [processBlocks]
    rw [applyBlock_qsql_irrel k df q1 s1 q2 s2, ih]

/-- Claim C9: the artifact does not depend on the schema supplied at
construction, and the question and SQL texts influence the output only
through block selection. -/
theorem c9_noninterference :
    (∀ (S₁ S₂ : Type) (e₁ : InsightsEngine S₁) (e₂ : InsightsEngine S₂)
      (q sql : String) (df : DataFrame), e₁.run q sql df = e₂.run q sql df) ∧
    (∀ (S : Type) (e : InsightsEngine S) (q1 s1 q2 s2 : String) (df : DataFrame),
      inferBlocks q1 s1 df = inferBlocks q2 s2 df →
      e.run q1 s1 df = e.run q2 s2 df) := by
  constructor
  · intro S₁ S₂ e₁ e₂ q sql df
    rfl
  · intro S e q1 s1 q2 s2 df h
    simp only [InsightsEngine.run]
    rw [h, processBlocks_qsql_irrel (inferBlocks q2 s2 df) df q1 s1 q2 s2]

/-- Claim C9 witness: two engines with different schema collaborators and
two question/SQL pairs selecting the same blocks yield the same artifact. -/
theorem c9_noninterference_witness :
    (InsightsEngine.mk "a schema").run "hello" "" dfFoo =
      (InsightsEngine.mk (37 : Nat)).run "hello" "" dfFoo ∧
    eng0.run "hello" "select 1" dfFoo = eng0.run "world" "select 2" dfFoo := by
  constructor
  · exact c9_noninterference.1 String Nat (InsightsEngine.mk "a schema")
      (InsightsEngine.mk (37 : Nat)) "hello" "" dfFoo
  · exact c9_noninterference.2 Unit eng0 "hello" "select 1" "world" "select 2" dfFoo
      (by decide)

theorem deliveryKpis_tiles (lc : Option Column) :
    ∀ t ∈ deliveryKpis lc, t.change = "" ∧ t.icon ≠ "" := by
  intro t ht
  cases lc with
  | none => simp [deliveryKpis] at ht
  | some c =>
    simp only [deliveryKpis] at ht
    split at ht
    · rcases List.mem_cons.mp ht with rfl | h2
      · exact ⟨rfl, by show ("🚚" : String) ≠ ""; decide⟩
      · rcases List.mem_cons.mp h2 with rfl | h3
        · exact ⟨rfl, by show ("⚠️" : String) ≠ ""; decide⟩
        · simp at h3
    · simp at ht

theorem paymentKpis_tiles (vc : Column) :
    ∀ t ∈ paymentKpis vc, t.change = "" ∧ t.icon ≠ "" := by
  intro t ht
  simp only [paymentKpis] at ht
  rcases List.mem_cons.mp ht with rfl | h2
  · exact ⟨rfl, by show ("💰" : String) ≠ ""; decide⟩
  · rcases List.mem_cons.mp h2 with rfl | h3
    · exact ⟨rfl, by show ("📊" : String) ≠ ""; decide⟩
    · simp at h3

theorem reviewKpis_tiles (c : Column) :
    ∀ t ∈ reviewKpis c, t.change = "" ∧ t.icon ≠ "" := by
  intro t ht
  simp only [reviewKpis] at ht
  rcases List.mem_cons.mp ht with rfl | h2
  · exact ⟨rfl, by show ("⭐" : String) ≠ ""; decide⟩
  · rcases List.mem_cons.mp h2 with rfl | h3
    · exact ⟨rfl, by show ("👍" : String) ≠ ""; decide⟩
    · simp at h3

/-- Claim C10: every metric tile produced by any analysis block or by the
generic fallback has an empty change field and a non-empty icon glyph. -/
theorem c10_tile_change_icon (df : DataFrame) (q sql : String) :
    (∀ (k : BlockKind) (r : BlockResult),
      applyBlock k df q sql = Except.ok (some r) →
      ∀ t ∈ r.kpis, t.change = "" ∧ t.icon ≠ "") ∧
    (∀ t ∈ (genericStats df).kpis, t.change = "" ∧ t.icon ≠ "") := by
  constructor
  · intro k r hk
    cases k with
    | delivery =>
      simp only [applyBlock] at hk
      unfold deliveryBlock at hk
      split at hk
      · simp at hk
      · split at hk
        · simp at hk
        · simp only [Except.ok.injEq, Option.some.injEq] at hk
          subst hk
          exact deliveryKpis_tiles (lateColumn df)
    | payment =>
      simp only [applyBlock] at hk
      unfold paymentBlock at hk
      split at hk
      · simp at hk
      · rename_i vc rest heq
        split at hk
        · simp only [Except.ok.injEq, Option.some.injEq] at hk
          subst hk
          exact paymentKpis_tiles vc
        · simp at hk
    | review =>
      simp only [applyBlock] at hk
      unfold reviewBlock at hk
      split at hk
      · simp at hk
      · rename_i c heq
        split at hk
        · simp only [Except.ok.injEq, Option.some.injEq] at hk
          subst hk
          exact reviewKpis_tiles c
        · simp at hk
  · intro t ht
    simp only [genericStats, List.mem_append] at ht
    rcases ht with hpair | hnum
    · rcases List.mem_cons.mp hpair with rfl | h2
      · exact ⟨rfl, by show ("📋" : String) ≠ ""; decide⟩
      · rcases List.mem_cons.mp h2 with rfl | h3
        · exact ⟨rfl, by show ("📊" : String) ≠ ""; decide⟩
        · simp at h3
    · split at hnum
      · rcases List.mem_cons.mp hnum with rfl | h2
        · exact ⟨rfl, by show ("🔢" : String) ≠ ""; decide⟩
        · simp at h2
      · simp at hnum

/-- Claim C10 witness: the row-count tile of the generic fallback on a
concrete frame has an empty change and a non-empty icon. -/
theorem c10_tile_change_icon_witness :
    (MetricTile.mk "Rows Returned" (fmtCommaNat dfFoo.nrows) "" "📋").change = "" ∧
    (MetricTile.mk "Rows Returned" (fmtCommaNat dfFoo.nrows) "" "📋").icon ≠ "" :=
  (c10_tile_change_icon dfFoo "hello" "select 1").2
    (MetricTile.mk "Rows Returned" (fmtCommaNat dfFoo.nrows) "" "📋") (by decide)

/-- Claim C5: for every input on which run succeeds, the artifact carries
at most two charts, namely the first two accumulated in block-invocation
order (and none at all on the empty short-circuit). -/
theorem c5_charts_cap (S : Type) (e : InsightsEngine S) (q sql : String)
    (df : DataFrame) (a : InsightArtifacts)
    (h : e.run q sql df = Except.ok a) :
    a.charts.length ≤ 2 ∧
    (df.isEmptyDf = true → a.charts = []) ∧
    (∀ ts ns cs ds, df.isEmptyDf = false →
      processBlocks (inferBlocks q sql df) df q sql = Except.ok (ts, ns, cs, ds) →
      a.charts = cs.take 2) := by
  by_cases hemp : df.isEmptyDf = true
  · simp only [InsightsEngine.run, hemp, if_true] at h
    simp only [Except.ok.injEq] at h
    subst h
    refine ⟨by simp, fun _ => rfl, fun ts ns cs ds hne _ => ?_⟩
    rw [hemp] at hne
    simp at hne
  · rw [Bool.not_eq_true] at hemp
    simp only [InsightsEngine.run, hemp, Bool.false_eq_true, if_false] at h
    rcases hp : processBlocks (inferBlocks q sql df) df q sql with e | ⟨ts0, ns0, cs0, ds0⟩
    · rw [hp] at h
      simp at h
    · rw [hp] at h
      simp only [Except.ok.injEq] at h
      subst h
      refine ⟨List.length_take_le 2 cs0, fun habs => absurd habs (by simp [hemp]),
        fun ts ns cs ds _ hpb => ?_⟩
      simp only [Except.ok.injEq, Prod.mk.injEq] at hpb
      obtain ⟨-, -, hcs, -⟩ := hpb
      show List.take 2 cs0 = List.take 2 cs
      rw [hcs]

/-- Claim C5 witness: the chart list of the artifact produced for a
concrete frame has length at most two. -/
theorem c5_charts_cap_witness :
    (InsightArtifacts.mk (genericStats dfFoo).kpis (genericStats dfFoo).narrative
      [] "Generic analysis").charts.length ≤ 2 :=
  (c5_charts_cap Unit eng0 "hello" "select 1" dfFoo
    (InsightArtifacts.mk (genericStats dfFoo).kpis (genericStats dfFoo).narrative
      [] "Generic analysis") rfl).1

/-- Claim C1 (amended): for every empty result set the run short-circuits
to the artifact with no metrics, the markdown-italicised narrative
text with surrounding asterisks, no charts and derivation Empty result
set, for any question and SQL and independently of every analysis block. -/
theorem c1_empty_short_circuit (S : Type) (e : InsightsEngine S) (q sql : String)
    (df : DataFrame) (h : df.isEmptyDf = true) :
    e.run q sql df =
      Except.ok ⟨[], "*No data returned to analyze.*", [], "Empty result set"⟩ := by
  simp only [InsightsEngine.run, h]
  rfl

/-- Claim C1 witness: the short-circuit artifact on a concrete empty
frame. -/
theorem c1_empty_short_circuit_witness :
    eng0.run "q" "sql" dfEmpty0 =
      Except.ok ⟨[], "*No data returned to analyze.*", [], "Empty result set"⟩ :=
  c1_empty_short_circuit Unit eng0 "q" "sql" dfEmpty0 rfl

/-- Claim C1 counterexample: on an empty result set the narrative the code
returns is the asterisk-wrapped markdown string, not the bare sentence the
claim states it equals exactly. -/
theorem c1_narrative_exact_cex :
    dfEmpty0.isEmptyDf = true ∧
    (match eng0.run "q" "sql" dfEmpty0 with
      | Except.ok a => a.narrative
      | Except.error _ => "") = "*No data returned to analyze.*" ∧
    "*No data returned to analyze.*" ≠ "No data returned to analyze." := by
  refine ⟨rfl, rfl, by decide⟩

/-- Claim C2: on a well-formed non-empty result set with a text-typed
late column and a state column, the engine raises from the delivery chart
path instead of treating the type mismatch as a no-match; the claim that
no exception propagates fails on the code. -/
theorem c2_engine_raises_on_text_late :
    dfBad.wf = true ∧
    dfBad.isEmptyDf = false ∧
    (lateColumn dfBad).map Column.dtype = some DType.obj ∧
    eng0.run "late deliveries" "" dfBad =
      Except.error "TypeError: agg function failed on object dtype" := by
  refine ⟨by decide, by decide, by decide, by rfl⟩

theorem deliveryPoints_nil (lc : Option Column) (hk : deliveryKpis lc = []) :
    deliveryPoints lc = [] := by
  cases lc with
  | none => rfl
  | some c =>
    cases htype : c.dtype.isNumBool with
    | true => simp [deliveryKpis, htype] at hk
    | false => simp [deliveryPoints, htype]

theorem deliveryChart_none_of_kpis_nil (df : DataFrame) (ch : Option Chart)
    (h : deliveryChart df = Except.ok ch)
    (hk : deliveryKpis (lateColumn df) = []) : ch = none := by
  unfold deliveryChart at h
  split at h
  · rename_i s lc hs hl
    split at h
    · split at h
      · rename_i hrows htype
        rw [hl] at hk
        simp [deliveryKpis, htype] at hk
      · simp at h
    · simp only [Except.ok.injEq] at h
      exact h.symm
  · simp only [Except.ok.injEq] at h
    exact h.symm

theorem deliveryBlock_kpis_nil (df : DataFrame) (q sql : String) (r : BlockResult)
    (h : deliveryBlock df q sql = Except.ok (some r)) (hk : r.kpis = []) :
    r.narrative = "" ∧ r.chart = none := by
  unfold deliveryBlock at h
  split at h
  · simp at h
  · cases hch : deliveryChart df with
    | error e =>
      rw [hch] at h
      simp at h
    | ok ch =>
      rw [hch] at h
      simp only [Except.ok.injEq, Option.some.injEq] at h
      subst h
      simp only at hk
      refine ⟨?_, deliveryChart_none_of_kpis_nil df ch hch hk⟩
      show joinPoints (deliveryPoints (lateColumn df)) = ""
      rw [deliveryPoints_nil (lateColumn df) hk]
      rfl

theorem paymentBlock_kpis_ne_nil (df : DataFrame) (q sql : String) (r : BlockResult)
    (h : paymentBlock df q sql = Except.ok (some r)) : r.kpis ≠ [] := by
  unfold paymentBlock at h
  split at h
  · simp at h
  · rename_i vc rest heq
    split at h
    · simp only [Except.ok.injEq, Option.some.injEq] at h
      subst h
      simp [paymentKpis]
    · simp at h

theorem reviewBlock_kpis_ne_nil (df : DataFrame) (q sql : String) (r : BlockResult)
    (h : reviewBlock df q sql = Except.ok (some r)) : r.kpis ≠ [] := by
  unfold reviewBlock at h
  split at h
  · simp at h
  · rename_i c heq
    split at h
    · simp only [Except.ok.injEq, Option.some.injEq] at h
      subst h
      simp [reviewKpis]
    · simp at h

theorem applyBlock_kpis_nil (k : BlockKind) (df : DataFrame) (q sql : String)
    (r : BlockResult) (h : applyBlock k df q sql = Except.ok (some r))
    (hk : r.kpis = []) : r.narrative = "" ∧ r.chart = none := by
  cases k with
  | delivery => exact deliveryBlock_kpis_nil df q sql r h hk
  | payment => exact absurd hk (paymentBlock_kpis_ne_nil df q sql r h)
  | review => exact absurd hk (reviewBlock_kpis_ne_nil df q sql r h)

theorem processBlocks_kpis_nil (ks : List BlockKind) (df : DataFrame) (q sql : String) :
    ∀ ts ns cs ds, processBlocks ks df q sql = Except.ok (ts, ns, cs, ds) →
    ts = [] → ns = [] ∧ cs = [] := by
  induction ks with
  | nil =>
    intro ts ns cs ds h hts
    simp only [processBlocks, Except.ok.injEq, Prod.mk.injEq] at h
    exact ⟨h.2.1.symm, h.2.2.1.symm⟩
  | cons k rest ih =>
    intro ts ns cs ds h hts
    simp only [processBlocks] at h
    cases hap : applyBlock k df q sql with
    | error e =>
      rw [hap] at h
      simp at h
    | ok o =>
      rw [hap] at h
      cases o with
      | none => exact ih ts ns cs ds h hts
      | some r =>
        cases hrec : processBlocks rest df q sql with
        | error e =>
          rw [hrec] at h
          simp at h
        | ok tup =>
          obtain ⟨ts1, ns1, cs1, ds1⟩ := tup
          rw [hrec] at h
          simp only [Except.ok.injEq, Prod.mk.injEq] at h
          obtain ⟨hts', hns', hcs', -⟩ := h
          rw [hts] at hts'
          rcases List.append_eq_nil.mp hts' with ⟨hrk, hts1⟩
          obtain ⟨hnarr, hchart⟩ := applyBlock_kpis_nil k df q sql r hap hrk
          obtain ⟨hns1, hcs1⟩ := ih ts1 ns1 cs1 ds1 hrec hts1
          constructor
          · rw [← hns']
            simp [hnarr, hns1]
          · rw [← hcs']
            simp [hchart, hcs1]

/-- Claim C4 (amended): for every non-empty result set, if the metrics
accumulated over all selected blocks are empty (including when zero blocks
were selected), run returns the generic-fallback metrics (exactly Rows
Returned and Columns, plus Numeric Fields iff a numeric column exists) and
the generic narrative, with no charts; the derivation text is the joined
derivation labels of the blocks that were invoked, or Generic analysis
when no invoked block contributed one. -/
theorem c4_generic_fallback (S : Type) (e : InsightsEngine S) (q sql : String)
    (df : DataFrame) (ts : List MetricTile) (ns : List String) (cs : List Chart)
    (ds : List String) (hemp : df.isEmptyDf = false)
    (hpb : processBlocks (inferBlocks q sql df) df q sql = Except.ok (ts, ns, cs, ds))
    (hts : ts = []) :
    e.run q sql df =
      Except.ok ⟨(genericStats df).kpis, (genericStats df).narrative, [],
        if ds.isEmpty then "Generic analysis" else strJoin " → " ds⟩ ∧
    (genericStats df).kpis =
      [⟨"Rows Returned", fmtCommaNat df.nrows, "", "📋"⟩,
       ⟨"Columns", natToString df.ncols, "", "📊"⟩] ++
      (if (df.cols.filter (fun c => c.dtype.isNum)).length > 0 then
         [⟨"Numeric Fields", natToString (df.cols.filter (fun c => c.dtype.isNum)).length,
           "", "🔢"⟩]
       else []) := by
  obtain ⟨hns, hcs⟩ := processBlocks_kpis_nil (inferBlocks q sql df) df q sql
    ts ns cs ds hpb hts
  subst hts hns hcs
  constructor
  · simp only [InsightsEngine.run, hemp, Bool.false_eq_true, if_false]
    rw [hpb]
    simp [strJoin_single]
  · rfl

/-- Claim C4 counterexample: a non-empty frame with a text-typed late
column and no state column.  The delivery block is selected, contributes
no metrics, the generic fallback supplies the metrics and narrative, yet
the derivation is Delivery analysis, not the Generic analysis the claim
states. -/
theorem c4_derivation_cex :
    dfLateOnly.isEmptyDf = false ∧
    processBlocks (inferBlocks "late" "" dfLateOnly) dfLateOnly "late" "" =
      Except.ok ([], [], [], ["Delivery analysis"]) ∧
    (match eng0.run "late" "" dfLateOnly with
      | Except.ok a => a.kpis
      | Except.error _ => []) = (genericStats dfLateOnly).kpis ∧
    (match eng0.run "late" "" dfLateOnly with
      | Except.ok a => a.derivation
      | Except.error _ => "") = "Delivery analysis" ∧
    "Delivery analysis" ≠ "Generic analysis" := by
  refine ⟨rfl, by rfl, by decide, by decide, by decide⟩

/-- Claim C4 witness: on a frame with no marker columns and a question
with no keywords, zero blocks are selected and run returns the generic
artifact with derivation Generic analysis. -/
theorem c4_generic_fallback_witness :
    eng0.run "hello" "select 1" dfFoo =
      Except.ok ⟨(genericStats dfFoo).kpis, (genericStats dfFoo).narrative, [],
        "Generic analysis"⟩ := by
  have h := (c4_generic_fallback Unit eng0 "hello" "select 1" dfFoo [] [] [] []
    rfl rfl rfl).1
  simpa using h

theorem contains_good_of_good_narrative (rate : Q) :
    containsStr ("- " ++ goodPointStr rate) "good" = true := by
  unfold containsStr goodPointStr
  simp only [strData_append, ← List.append_assoc]
  apply containsL_append_left
  apply containsL_append_left
  decide

theorem contains_high_of_high_narrative (rate : Q) :
    containsStr ("- " ++ highPointStr rate) "High late delivery rate" = true := by
  unfold containsStr highPointStr
  simp only [strData_append, ← List.append_assoc]
  apply containsL_append_left
  apply containsL_append_left
  decide

theorem not_contains_high_of_good_narrative (rate : Q) :
    containsStr ("- " ++ goodPointStr rate) "High late delivery rate" = false := by
  by_contra hcon
  rw [Bool.not_eq_false] at hcon
  unfold containsStr goodPointStr at hcon
  have hH : 'H' ∈ ("- " ++
      ("Delivery performance is **good** with " ++ fmtFixed false 1 rate ++
        "% late rate")).data :=
    containsL_subset _ _ hcon 'H' (by decide)
  simp only [strData_append, List.mem_append] at hH
  rcases hH with h | ((h | h) | h)
  · exact absurd h (by decide)
  · exact absurd h (by decide)
  · exact absurd (mem_fmtFixed_data false 1 rate 'H' h) (by decide)
  · exact absurd h (by decide)

/-- General behaviour of the delivery block on a numeric or boolean
late-indicator column: the two tiles carry the rate and count, the
narrative is the high warning exactly above the 10 percent threshold and
the good remark otherwise. -/
theorem deliveryBlockSpecAux (df : DataFrame) (q sql : String) (c : Column)
    (r : BlockResult) (hl : lateColumn df = some c)
    (ht : c.dtype.isNumBool = true)
    (hb : deliveryBlock df q sql = Except.ok (some r)) :
    r.kpis = [⟨"Late Delivery Rate", fmtFixed false 1 (lateRate c) ++ "%", "", "🚚"⟩,
              ⟨"Late Deliveries", fmtCommaInt (qtrunc (lateCount c)), "", "⚠️"⟩] ∧
    (containsStr r.narrative "High late delivery rate" = true ↔
      qlt ⟨10, 1⟩ (lateRate c) = true) ∧
    (qle (lateRate c) ⟨10, 1⟩ = true → containsStr r.narrative "good" = true) := by
  unfold deliveryBlock at hb
  simp only [hl, Option.isNone_some, Bool.false_and, Bool.false_eq_true, if_false] at hb
  cases hch : deliveryChart df with
  | error e =>
    rw [hch] at hb
    simp at hb
  | ok ch =>
    rw [hch] at hb
    simp only [Except.ok.injEq, Option.some.injEq] at hb
    subst hb
    refine ⟨by simp [deliveryKpis, ht], ?_, ?_⟩
    · show containsStr (joinPoints (deliveryPoints (some c))) _ = true ↔ _
      simp only [deliveryPoints, ht, if_true]
      cases hrt : qlt ⟨10, 1⟩ (lateRate c) with
      | true =>
        simp only [hrt, if_true]
        rw [joinPoints_single]
        simp [contains_high_of_high_narrative (lateRate c)]
      | false =>
        simp only [hrt, Bool.false_eq_true, if_false]
        rw [joinPoints_single]
        simp [not_contains_high_of_good_narrative (lateRate c)]
    · intro hle
      have hrt : qlt ⟨10, 1⟩ (lateRate c) = false := qlt_false_of_qle_true _ _ hle
      show containsStr (joinPoints (deliveryPoints (some c))) _ = true
      simp only [deliveryPoints, ht, if_true, hrt, Bool.false_eq_true, if_false]
      rw [joinPoints_single]
      exact contains_good_of_good_narrative (lateRate c)

/-- Claim C6: on every result set whose late-indicator column is numeric
or boolean the delivery block emits late rate equal to the column mean
times 100 and late count equal to the column sum, flags the high warning
exactly when the rate exceeds 10 and the good remark otherwise; on the
ten-row boolean is_late column with one true value and the delivery delay
question the rate is 10.0 percent, the count is 1 and the narrative says
good (the boundary falls in the good branch), while two true values yield
the high late delivery rate warning. -/
theorem c6_delivery_late_metrics :
    (∀ (df : DataFrame) (q sql : String) (c : Column) (r : BlockResult),
      lateColumn df = some c → c.dtype.isNumBool = true →
      deliveryBlock df q sql = Except.ok (some r) →
      r.kpis = [⟨"Late Delivery Rate", fmtFixed false 1 (lateRate c) ++ "%", "", "🚚"⟩,
                ⟨"Late Deliveries", fmtCommaInt (qtrunc (lateCount c)), "", "⚠️"⟩] ∧
      (containsStr r.narrative "High late delivery rate" = true ↔
        qlt ⟨10, 1⟩ (lateRate c) = true) ∧
      (qle (lateRate c) ⟨10, 1⟩ = true → containsStr r.narrative "good" = true)) ∧
    (qeqv (lateRate isLateCol1) ⟨10, 1⟩ && qeqv (lateCount isLateCol1) ⟨1, 1⟩) = true ∧
    (match eng0.run "What is the delivery delay rate?" "" dfIsLate1 with
      | Except.ok a => a.kpis
      | Except.error _ => []) =
      [⟨"Late Delivery Rate", "10.0%", "", "🚚"⟩,
       ⟨"Late Deliveries", "1", "", "⚠️"⟩] ∧
    (match eng0.run "What is the delivery delay rate?" "" dfIsLate1 with
      | Except.ok a => containsStr a.narrative "good"
      | Except.error _ => false) = true ∧
    (match eng0.run "What is the delivery delay rate?" "" dfIsLate2 with
      | Except.ok a => containsStr a.narrative "High late delivery rate"
      | Except.error _ => false) = true := by
  refine ⟨?_, by decide, by decide, by decide, by decide⟩
  intro df q sql c r hl ht hb
  exact deliveryBlockSpecAux df q sql c r hl ht hb

def rIsLate1 : BlockResult :=
  ⟨[⟨"Late Delivery Rate", "10.0%", "", "🚚"⟩,
    ⟨"Late Deliveries", "1", "", "⚠️"⟩],
   "- Delivery performance is **good** with 10.0% late rate", none,
   "Delivery analysis"⟩

/-- Claim C6 witness: the general statement applied to the concrete
ten-row is_late frame, discharging its hypotheses there. -/
theorem c6_delivery_late_metrics_witness :
    rIsLate1.kpis =
      [⟨"Late Delivery Rate", fmtFixed false 1 (lateRate isLateCol1) ++ "%", "", "🚚"⟩,
       ⟨"Late Deliveries", fmtCommaInt (qtrunc (lateCount isLateCol1)), "", "⚠️"⟩] ∧
    containsStr rIsLate1.narrative "good" = true := by
  have h := c6_delivery_late_metrics.1 dfIsLate1 "What is the delivery delay rate?" ""
    isLateCol1 rIsLate1 rfl rfl (by rfl)
  exact ⟨h.1, h.2.2 (by decide)⟩

theorem skew_ne_top (name : String) (v p : Q) :
    skewPointStr ≠ topPointStr name v p := by
  intro h
  have e1 : skewPointStr.data[2]? = some 'R' := rfl
  have e2 : (topPointStr name v p).data[2]? = some 'T' := by
    show ("**Top performer:** " ++ name ++ " contributes $" ++ fmtFixed true 0 v ++
      " (" ++ fmtFixed false 1 p ++ "%)").data[2]? = some 'T'
    simp only [strData_append, List.append_assoc]
    rfl
  rw [h] at e1
  exact absurd (e1.symm.trans e2) (by decide)

theorem skew_not_mem_top (df : DataFrame) (vc : Column) :
    skewPointStr ∉ paymentTopPoint df vc := by
  cases hg : groupbyColumn df with
  | none => simp [paymentTopPoint, hg]
  | some g =>
    by_cases hu : (uniqueCells g.cells).length > 1
    · cases htg : topGroup g vc with
      | none => simp [paymentTopPoint, hg, hu, htg]
      | some kv =>
        obtain ⟨k, s⟩ := kv
        simp only [paymentTopPoint, hg, hu, if_true, htg, List.mem_singleton]
        exact skew_ne_top (CellVal.show k) s _
    · simp [paymentTopPoint, hg, hu]

/-- General behaviour of the payment block on a numeric first value
column: the total and average tiles, and the skew bullet present exactly
when the mean exceeds one and a half times the median. -/
theorem paymentBlockSpecAux (df : DataFrame) (q sql : String) (c : Column)
    (r : BlockResult) (hv : (valueColumns df).head? = some c)
    (ht : c.dtype.isNum = true)
    (hb : paymentBlock df q sql = Except.ok (some r)) :
    r.kpis = [⟨"Total Value", "$" ++ fmtFixed true 0 (qsum c.numVals), "", "💰"⟩,
              ⟨"Average", "$" ++ fmtFixed true 2 (qmean c.numVals), "", "📊"⟩] ∧
    (skewPointStr ∈ paymentPoints df c ↔
      qlt (qmul (qmedian c.numVals) ⟨3, 2⟩) (qmean c.numVals) = true) := by
  unfold paymentBlock at hb
  cases hvc : valueColumns df with
  | nil =>
    rw [hvc] at hv
    simp at hv
  | cons vc rest =>
    rw [hvc] at hv
    simp only [List.head?_cons, Option.some.injEq] at hv
    subst hv
    rw [hvc] at hb
    simp only [ht, if_true] at hb
    simp only [Except.ok.injEq, Option.some.injEq] at hb
    subst hb
    refine ⟨rfl, ?_⟩
    cases hskew : qlt (qmul (qmedian vc.numVals) ⟨3, 2⟩) (qmean vc.numVals) with
    | true =>
      simp [paymentPoints, hskew]
    | false =>
      simp only [paymentPoints, hskew, Bool.false_eq_true, if_false, List.nil_append]
      simp [skew_not_mem_top df vc]

/-- Claim C7: on every result set whose first value-marker column is
numeric the payment block computes total, average and median of that
column, emits the Total Value (currency, no decimals) and Average
(currency, two decimals) tiles, and flags right-skew exactly when the
average exceeds one and a half times the median; on the order_value
column 100, 100, 100, 100, 500 with the total revenue question the total
is 900, the average 180.00, the median 100, and the narrative flags
right-skew. -/
theorem c7_payment_value_metrics :
    (∀ (df : DataFrame) (q sql : String) (c : Column) (r : BlockResult),
      (valueColumns df).head? = some c → c.dtype.isNum = true →
      paymentBlock df q sql = Except.ok (some r) →
      r.kpis = [⟨"Total Value", "$" ++ fmtFixed true 0 (qsum c.numVals), "", "💰"⟩,
                ⟨"Average", "$" ++ fmtFixed true 2 (qmean c.numVals), "", "📊"⟩] ∧
      (skewPointStr ∈ paymentPoints df c ↔
        qlt (qmul (qmedian c.numVals) ⟨3, 2⟩) (qmean c.numVals) = true)) ∧
    (qeqv (qsum payCol1.numVals) ⟨900, 1⟩ &&
      qeqv (qmean payCol1.numVals) ⟨180, 1⟩ &&
      qeqv (qmedian payCol1.numVals) ⟨100, 1⟩) = true ∧
    (match eng0.run "total revenue" "" dfPay with
      | Except.ok a => a.kpis
      | Except.error _ => []) =
      [⟨"Total Value", "$900", "", "💰"⟩,
       ⟨"Average", "$180.00", "", "📊"⟩] ∧
    (match eng0.run "total revenue" "" dfPay with
      | Except.ok a => containsStr a.narrative "Right-skewed distribution"
      | Except.error _ => false) = true := by
  refine ⟨?_, by decide, by decide, by decide⟩
  intro df q sql c r hv ht hb
  exact paymentBlockSpecAux df q sql c r hv ht hb

def rPay1 : BlockResult :=
  ⟨[⟨"Total Value", "$900", "", "💰"⟩,
    ⟨"Average", "$180.00", "", "📊"⟩],
   "- **Right-skewed distribution** - few high-value transactions pull up the average",
   none, "Payment analysis"⟩

/-- Claim C7 witness: the general statement applied to the concrete
order_value frame, discharging its hypotheses there. -/
theorem c7_payment_value_metrics_witness :
    rPay1.kpis =
      [⟨"Total Value", "$" ++ fmtFixed true 0 (qsum payCol1.numVals), "", "💰"⟩,
       ⟨"Average", "$" ++ fmtFixed true 2 (qmean payCol1.numVals), "", "📊"⟩] ∧
    skewPointStr ∈ paymentPoints dfPay payCol1 := by
  have h := c7_payment_value_metrics.1 dfPay "total revenue" "" payCol1 rPay1
    rfl rfl (by rfl)
  exact ⟨h.1, h.2.mpr (by decide)⟩

theorem star_not_mem_attention (low : Nat) : '*' ∉ (attentionPointStr low).data := by
  intro h
  unfold attentionPointStr at h
  rw [strData_append] at h
  rcases List.mem_append.mp h with h | h
  · exact absurd (mem_fmtCommaNat_data low '*' h) (by decide)
  · exact absurd h (by decide)

theorem exc_ne_attention (low : Nat) : excellentPointStr ≠ attentionPointStr low := by
  intro h
  have hst : '*' ∈ (attentionPointStr low).data := by
    rw [← h]
    decide
  exact star_not_mem_attention low hst

theorem conc_ne_attention (low : Nat) : concerningPointStr ≠ attentionPointStr low := by
  intro h
  have hst : '*' ∈ (attentionPointStr low).data := by
    rw [← h]
    decide
  exact star_not_mem_attention low hst

theorem qlt3_false_of_qle4 (m : Q) (h : qle ⟨4, 1⟩ m = true) :
    qlt m ⟨3, 1⟩ = false := by
  simp only [qle, decide_eq_true_eq] at h
  simp only [qlt, decide_eq_false_iff_not, Int.not_lt]
  omega

/-- General behaviour of the review block on a numeric first score or
rating column: the two tiles, the satisfaction bullet present exactly in
its mean range, the attention bullet present exactly when a low score
exists, and the twenty-bin histogram present exactly above ten rows. -/
theorem reviewBlockSpecAux (df : DataFrame) (q sql : String) (c : Column)
    (r : BlockResult) (hs : scoreColumn df = some c) (ht : c.dtype.isNum = true)
    (hb : reviewBlock df q sql = Except.ok (some r)) :
    r.kpis = [⟨"Avg Review Score", fmtFixed false 2 (qmean c.numVals) ++ "/5", "", "⭐"⟩,
              ⟨"High Ratings (4-5)", fmtCommaNat (highScores c), "", "👍"⟩] ∧
    (excellentPointStr ∈ reviewPoints c ↔ qle ⟨4, 1⟩ (qmean c.numVals) = true) ∧
    (concerningPointStr ∈ reviewPoints c ↔ qlt (qmean c.numVals) ⟨3, 1⟩ = true) ∧
    (attentionPointStr (lowScores c) ∈ reviewPoints c ↔ 0 < lowScores c) ∧
    (r.chart = some (mkHistogram "Review Score Distribution" c.name) ↔ 10 < df.nrows) := by
  unfold reviewBlock at hb
  rw [hs] at hb
  simp only [ht, if_true] at hb
  simp only [Except.ok.injEq, Option.some.injEq] at hb
  subst hb
  refine ⟨rfl, ?_, ?_, ?_, ?_⟩
  · cases h4 : qle ⟨4, 1⟩ (qmean c.numVals) with
    | true => simp [reviewPoints, h4]
    | false =>
      simp only [reviewPoints, h4, Bool.false_eq_true, if_false]
      constructor
      · intro hmem
        exfalso
        rcases List.mem_append.mp hmem with hsat | hatt
        · split at hsat
          · exact absurd (List.mem_singleton.mp hsat) (by decide)
          · simp at hsat
        · split at hatt
          · exact exc_ne_attention _ (List.mem_singleton.mp hatt)
          · simp at hatt
      · intro hq
        exact hq.elim
  · cases h4 : qle ⟨4, 1⟩ (qmean c.numVals) with
    | true =>
      have h3 : qlt (qmean c.numVals) ⟨3, 1⟩ = false := qlt3_false_of_qle4 _ h4
      simp only [reviewPoints, h4, if_true, h3]
      constructor
      · intro hmem
        exfalso
        rcases List.mem_append.mp hmem with hsat | hatt
        · exact absurd (List.mem_singleton.mp hsat) (by decide)
        · split at hatt
          · exact conc_ne_attention _ (List.mem_singleton.mp hatt)
          · simp at hatt
      · intro hq
        exact absurd hq (by decide)
    | false =>
      cases h3 : qlt (qmean c.numVals) ⟨3, 1⟩ with
      | true => simp [reviewPoints, h4, h3]
      | false =>
        simp only [reviewPoints, h4, h3, Bool.false_eq_true, if_false, List.nil_append]
        constructor
        · intro hmem
          exfalso
          split at hmem
          · exact conc_ne_attention _ (List.mem_singleton.mp hmem)
          · simp at hmem
        · intro hq
          exact hq.elim
  · by_cases hlow : 0 < lowScores c
    · simp [reviewPoints, hlow]
    · have hlow' : ¬ lowScores c > 0 := hlow
      simp only [reviewPoints, hlow', if_false, List.append_nil]
      constructor
      · intro hmem
        exfalso
        split at hmem
        · exact exc_ne_attention _ (List.mem_singleton.mp hmem).symm
        · split at hmem
          · exact conc_ne_attention _ (List.mem_singleton.mp hmem).symm
          · simp at hmem
      · intro hq
        exact hq.elim
  · by_cases hn : df.nrows > 10
    · simp [hn]
    · simp [hn]

/-- Claim C8: the review block returns nothing when no column name
contains score or rating or when the first such column is non-numeric;
otherwise it emits the average-score tile (two decimals, slash-five
suffix) and the count of scores of at least four, carries the excellent
praise exactly when the mean is at least 4.0, the concerning warning
exactly when the mean is below 3.0, the attention remark exactly when
some score is at most two, and a twenty-bin histogram exactly when the
result set has more than ten rows. -/
theorem c8_review_block :
    (∀ (df : DataFrame) (q sql : String),
      (∀ col ∈ df.cols, containsStr (lowerStr col.name) "score" = false ∧
        containsStr (lowerStr col.name) "rating" = false) →
      reviewBlock df q sql = Except.ok none) ∧
    (∀ (df : DataFrame) (q sql : String) (c : Column),
      scoreColumn df = some c → c.dtype.isNum = false →
      reviewBlock df q sql = Except.ok none) ∧
    (∀ (df : DataFrame) (q sql : String) (c : Column) (r : BlockResult),
      scoreColumn df = some c → c.dtype.isNum = true →
      reviewBlock df q sql = Except.ok (some r) →
      r.kpis = [⟨"Avg Review Score", fmtFixed false 2 (qmean c.numVals) ++ "/5", "", "⭐"⟩,
                ⟨"High Ratings (4-5)", fmtCommaNat (highScores c), "", "👍"⟩] ∧
      (excellentPointStr ∈ reviewPoints c ↔ qle ⟨4, 1⟩ (qmean c.numVals) = true) ∧
      (concerningPointStr ∈ reviewPoints c ↔ qlt (qmean c.numVals) ⟨3, 1⟩ = true) ∧
      (attentionPointStr (lowScores c) ∈ reviewPoints c ↔ 0 < lowScores c) ∧
      (r.chart = some (mkHistogram "Review Score Distribution" c.name) ↔
        10 < df.nrows)) := by
  refine ⟨?_, ?_, ?_⟩
  · intro df q sql h
    have hs : scoreColumn df = none := by
      unfold scoreColumn findColBy
      apply List.find?_eq_none.mpr
      intro col hc
      simp [(h col hc).1, (h col hc).2]
    unfold reviewBlock
    rw [hs]
  · intro df q sql c hs ht
    unfold reviewBlock
    rw [hs]
    simp [ht]
  · intro df q sql c r hs ht hb
    exact reviewBlockSpecAux df q sql c r hs ht hb

def rReview1 : BlockResult :=
  ⟨[⟨"Avg Review Score", "3.75/5", "", "⭐"⟩,
    ⟨"High Ratings (4-5)", "3", "", "👍"⟩],
   "- 1 low ratings (≤2) require attention", none, "Review analysis"⟩

/-- Claim C8 witness: the general statement applied to a concrete
four-row review_score frame, discharging its hypotheses there. -/
theorem c8_review_block_witness :
    rReview1.kpis =
      [⟨"Avg Review Score", fmtFixed false 2 (qmean reviewCol1.numVals) ++ "/5", "", "⭐"⟩,
       ⟨"High Ratings (4-5)", fmtCommaNat (highScores reviewCol1), "", "👍"⟩] ∧
    attentionPointStr (lowScores reviewCol1) ∈ reviewPoints reviewCol1 := by
  have h := c8_review_block.2.2 dfReview "are ratings good" "" reviewCol1 rReview1
    rfl rfl (by rfl)
  exact ⟨h.1, h.2.2.2.1.mpr (by decide)⟩
